import Mathlib

/-!
Verification of the species-finder pipeline (src/species_finder.py).

The program discovers csv files whose names match the glob pattern
"*final_results.csv" in a working directory, scans each file for rows whose
Species column equals a queried species, collects result records, writes them
to a csv named after the query, and plots them.  This file gives a shallow
embedding of that pipeline: files are lists of rows, rows are lists of string
fields interpreted through the header (as csv.DictReader does), errors are an
explicit error type, and the exporter produces the textual content of the
written csv.  Chart rendering is pure presentation and is not modelled.
-/

namespace SpeciesFinder

/-- Errors the python code can raise while aggregating: KeyError when a row
dictionary lacks a requested column, and an I/O error when a file cannot be
opened. -/
inductive PyError where
  | keyError
  | ioError
deriving DecidableEq, Repr

/-- The value stored under the "reads" key of a result dictionary.  The code
stores either the raw Reads field of a matching row (which csv.DictReader
gives as a string, or None when the row is shorter than the header), or the
integer 0 for a file with no matching rows. -/
inductive ReadsValue where
  | fromCsv : Option String → ReadsValue
  | intZero : ReadsValue
deriving DecidableEq, Repr

/-- One result dictionary: keys "filename" and "reads". -/
structure Record where
  filename : String
  reads : ReadsValue
deriving DecidableEq, Repr

/-- A parsed source csv: its filename, its header row, and its data rows. -/
structure CsvFile where
  name : String
  header : List String
  rows : List (List String)
deriving DecidableEq, Repr

/-- A directory entry: a name, and the parsed content of the entry, or none
when opening the entry raises an I/O error (unreadable file, directory, ...).
The list order is the order the operating system reports entries in, which is
the order glob returns matches. -/
structure DirEntry where
  name : String
  content : Option (List String × List (List String))
deriving DecidableEq, Repr

/-- The characters of the separator string "_final_results.csv" used by
shorten_name's split. -/
def sepChars : List Char := "_final_results.csv".data

/-- The characters of a string str before the first occurrence of the pattern
p in str; all of str when p does not occur.  This is exactly index 0 of
python's str.split(p) for a nonempty pattern p. -/
def beforeFirst (p : List Char) : List Char → List Char
  | [] => []
  | c :: rest => if p.isPrefixOf (c :: rest) then [] else c :: beforeFirst p rest

/-- shorten_name (src/species_finder.py lines 52-66): the display name of a
file is filename.split("_final_results.csv")[0], i.e. the part of the
filename before the first occurrence of "_final_results.csv" (the whole
filename when that substring is absent). -/
def shorten_name (filename : String) : String :=
  String.mk (beforeFirst sepChars filename.data)

/-- Whether a directory entry name is matched by glob.glob("*final_results.csv")
(src/species_finder.py line 195): the name must end with "final_results.csv",
and, because the glob wildcard does not match a leading dot, the name must not
start with a dot. -/
def globMatch (name : String) : Bool :=
  ("final_results.csv".data).isSuffixOf name.data && !(name.data.head? == some '.')

/-- The file discoverer: glob.glob("*final_results.csv") over the working
directory, in directory order. -/
def glob_final_results (dir : List DirEntry) : List String :=
  (dir.filter (fun e => globMatch e.name)).map (fun e => e.name)

/-- Index of the last occurrence of k in the header.  csv.DictReader builds
each row dictionary as dict(zip(fieldnames, row)), so with duplicate header
names the later column wins. -/
def lastIdx (k : String) : List String → Option Nat
  | [] => none
  | h :: t =>
    match lastIdx k t with
    | some j => some (j + 1)
    | none => if h == k then some 0 else none

/-- Row access line[k] on a csv.DictReader row: none models a KeyError (the
column k is absent from the header); some (row value at the column) otherwise,
where the inner none models the restval None used when the row has fewer
fields than the header. -/
def dictLookup (header row : List String) (k : String) : Option (Option String) :=
  (lastIdx k header).map (fun i => row.get? i)

/-- The row loop of create_species_dict (src/species_finder.py lines 94-108)
over one file: threads the species counter and the accumulated results list;
for each row whose Species field equals the query it increments the counter
and appends a record carrying that row's Reads field.  A missing Species or
Reads column raises a KeyError. -/
def scanRows (short q : String) (header : List String) :
    List (List String) → Nat → List Record → Except PyError (Nat × List Record)
  | [], counter, acc => .ok (counter, acc)
  | row :: rest, counter, acc =>
    match dictLookup header row "Species" with
    | none => .error PyError.keyError
    | some v =>
      if v == some q then
        match dictLookup header row "Reads" with
        | none => .error PyError.keyError
        | some rv =>
          scanRows short q header rest (counter + 1)
            (acc ++ [{ filename := short, reads := ReadsValue.fromCsv rv }])
      else
        scanRows short q header rest counter acc

/-- Processing of one opened file inside create_species_dict
(src/species_finder.py lines 83-121): scan all rows, then, when the species
counter is still zero, append the single record with reads = 0. -/
def create_species_dict_file (q : String) (f : CsvFile) : Except PyError (List Record) :=
  let short := shorten_name f.name
  match scanRows short q f.header f.rows 0 [] with
  | .error e => .error e
  | .ok (counter, recs) =>
    if counter = 0 then .ok (recs ++ [{ filename := short, reads := ReadsValue.intZero }])
    else .ok recs

/-- open(csv_file) on a name inside the working directory: an I/O error when
the name is absent or the entry cannot be read as a csv. -/
def openFile (dir : List DirEntry) (name : String) : Except PyError CsvFile :=
  match dir.find? (fun e => e.name == name) with
  | none => .error PyError.ioError
  | some e =>
    match e.content with
    | none => .error PyError.ioError
    | some c => .ok { name := name, header := c.1, rows := c.2 }

/-- create_species_dict (src/species_finder.py lines 69-125): loop over the
discovered csv list, open each file, process it, and collect all records in
one list; the first error aborts the run. -/
def create_species_dict (dir : List DirEntry) : List String → String → Except PyError (List Record)
  | [], _ => .ok []
  | name :: rest, q =>
    match openFile dir name with
    | .error e => .error e
    | .ok f =>
      match create_species_dict_file q f with
      | .error e => .error e
      | .ok recs =>
        match create_species_dict dir rest q with
        | .error e => .error e
        | .ok more => .ok (recs ++ more)

/-- How csv.DictWriter serialises a "reads" value: the integer 0 prints as
"0", the None restval prints as the empty string, a string prints as
itself. -/
def renderReads : ReadsValue → String
  | ReadsValue.intZero => "0"
  | ReadsValue.fromCsv none => ""
  | ReadsValue.fromCsv (some s) => s

/-- Whether the default csv dialect (QUOTE_MINIMAL) must quote a field. -/
def csvNeedsQuote (s : String) : Bool :=
  s.data.any (fun c => c == ',' || c == '"' || c == '\r' || c == '\n')

/-- Double every double quote inside a field. -/
def csvEscaped (s : String) : String :=
  String.mk (s.data.foldr (fun c acc => if c == '"' then '"' :: '"' :: acc else c :: acc) [])

/-- Serialise one csv field under the default dialect. -/
def csvField (s : String) : String :=
  if csvNeedsQuote s then "\"" ++ csvEscaped s ++ "\"" else s

/-- One line written by csv.DictWriter.writerows for a record, with the
default \r\n line terminator. -/
def exportRow (r : Record) : String :=
  csvField r.filename ++ "," ++ csvField (renderReads r.reads) ++ "\r\n"

/-- results_to_csv (src/species_finder.py lines 128-147): the full textual
content of the exported csv, a header line followed by one line per record in
list order.  The file it is written to is named q ++ ".csv". -/
def results_to_csv (results_list : List Record) : String :=
  "filename,reads\r\n" ++ String.join (results_list.map exportRow)

/-- The data rows of the exported table, as (filename, reads) string pairs in
record order. -/
def exportRows (results_list : List Record) : List (String × String) :=
  results_list.map (fun r => (r.filename, renderReads r.reads))

/-- The pipeline from directory contents and query to the content of the
exported csv: discover files, aggregate, export. -/
def pipeline (dir : List DirEntry) (q : String) : Except PyError String :=
  match create_species_dict dir (glob_final_results dir) q with
  | .error e => .error e
  | .ok results => .ok (results_to_csv results)

/-- The pipeline observed at the level of exported data rows. -/
def pipelineRows (dir : List DirEntry) (q : String) : Except PyError (List (String × String)) :=
  match create_species_dict dir (glob_final_results dir) q with
  | .error e => .error e
  | .ok results => .ok (exportRows results)

/-- Declarative description of the per-match records of one file: one record
per row whose Species field equals the query, carrying that row's Reads
field, in row order (rows whose Reads field is missing are skipped here; the
implementation raises a KeyError on them instead). -/
def matchRecords (short q : String) (header : List String) (rows : List (List String)) :
    List Record :=
  rows.filterMap (fun row =>
    match dictLookup header row "Species" with
    | none => none
    | some v =>
      if v == some q then
        (dictLookup header row "Reads").map
          (fun rv => { filename := short, reads := ReadsValue.fromCsv rv })
      else none)

/-- The number of rows of a file whose Species field equals the query. -/
def matchCount (q : String) (header : List String) (rows : List (List String)) : Nat :=
  (rows.filter (fun row =>
    match dictLookup header row "Species" with
    | none => false
    | some v => v == some q)).length

/-- Declarative description of all records one file contributes: its
per-match records when there is at least one, else the single zero record. -/
def fileRecords (f : CsvFile) (q : String) : List Record :=
  let short := shorten_name f.name
  let ms := matchRecords short q f.header f.rows
  if ms.isEmpty then [{ filename := short, reads := ReadsValue.intZero }] else ms

/-- Modelled from the claim of C6, as written: the display name is the
filename with the literal suffix "_final_results.csv" removed from its
end (unchanged when the filename does not end with it). -/
def removeSuffixSpec (filename : String) : String :=
  if sepChars.isSuffixOf filename.data then
    String.mk (filename.data.take (filename.data.length - sepChars.length))
  else filename

/-- Decidable condition on a character list a: no occurrence of the pattern
"_final_results.csv" inside a ++ "_final_results.csv" starts strictly before
the final suffix position, checked by testing every nonempty suffix of a. -/
def noEarlyOcc : List Char → Bool
  | [] => true
  | c :: rest => !(sepChars.isPrefixOf ((c :: rest) ++ sepChars)) && noEarlyOcc rest

/-- Decidable substring test: whether the pattern p occurs anywhere in the
list. -/
def containsSub (p : List Char) : List Char → Bool
  | [] => p.isEmpty
  | c :: rest => p.isPrefixOf (c :: rest) || containsSub p rest

/-! ### Helper lemmas -/

lemma lastIdx_eq_none (k : String) (header : List String) (hk : k ∉ header) :
    lastIdx k header = none := by
  induction header with
  | nil => rfl
  | cons h t ih =>
    have hne : ¬(h == k) = true := by
      simp only [beq_iff_eq]
      intro he
      exact hk (he ▸ List.mem_cons_self h t)
    have ht : lastIdx k t = none := ih (fun hm => hk (List.mem_cons_of_mem h hm))
    simp [lastIdx, ht, hne]

lemma dictLookup_eq_none (header row : List String) (k : String) (hk : k ∉ header) :
    dictLookup header row k = none := by
  simp [dictLookup, lastIdx_eq_none k header hk]

/-- Closed form for a successful row scan: the counter advances by the number
of matching rows, the accumulator is extended by exactly the per-match
records, and there are as many per-match records as matching rows. -/
lemma scanRows_ok (short q : String) (header : List String) :
    ∀ (rows : List (List String)) (c : Nat) (acc : List Record) (out : Nat × List Record),
      scanRows short q header rows c acc = .ok out →
      out.1 = c + matchCount q header rows ∧
      out.2 = acc ++ matchRecords short q header rows ∧
      (matchRecords short q header rows).length = matchCount q header rows := by
  intro rows
  induction rows with
  | nil =>
    intro c acc out h
    simp only [scanRows, Except.ok.injEq] at h
    simp [← h, matchCount, matchRecords]
  | cons row rest ih =>
    intro c acc out h
    simp only [scanRows] at h
    split at h
    · exact absurd h (by simp)
    · rename_i v hs
      split at h
      · rename_i hvq
        split at h
        · exact absurd h (by simp)
        · rename_i rv hr
          have hveq : v = some q := eq_of_beq hvq
          have hcnt : matchCount q header (row :: rest) = matchCount q header rest + 1 := by
            simp [matchCount, List.filter_cons, hs, hveq]
          have hm : matchRecords short q header (row :: rest) =
              { filename := short, reads := ReadsValue.fromCsv rv } ::
                matchRecords short q header rest := by
            simp [matchRecords, List.filterMap_cons, hs, hveq, hr]
          obtain ⟨h1, h2, h3⟩ := ih (c + 1)
            (acc ++ [{ filename := short, reads := ReadsValue.fromCsv rv }]) out h
          refine ⟨?_, ?_, ?_⟩
          · rw [h1, hcnt]; omega
          · rw [h2, hm]; simp
          · rw [hm, hcnt, List.length_cons, h3]
      · rename_i hvq
        have hb : (v == some q) = false := by
          cases hx : (v == some q) with
          | false => rfl
          | true => exact absurd hx hvq
        have hne : v ≠ some q := ne_of_beq_false hb
        have hcnt : matchCount q header (row :: rest) = matchCount q header rest := by
          simp [matchCount, List.filter_cons, hs, hb, hne]
        have hm : matchRecords short q header (row :: rest) =
            matchRecords short q header rest := by
          simp [matchRecords, List.filterMap_cons, hs, hb, hne]
        obtain ⟨h1, h2, h3⟩ := ih c acc out h
        refine ⟨?_, ?_, ?_⟩
        · rw [h1, hcnt]
        · rw [h2, hm]
        · rw [hm, hcnt, h3]

lemma matchRecords_filename (short q : String) (header : List String)
    (rows : List (List String)) :
    ∀ r ∈ matchRecords short q header rows, r.filename = short := by
  intro r hr
  simp only [matchRecords, List.mem_filterMap] at hr
  obtain ⟨row, hrow, hf⟩ := hr
  split at hf
  · cases hf
  · split at hf
    · obtain ⟨rv, hrv, hrec⟩ := Option.map_eq_some'.mp hf
      rw [← hrec]
    · cases hf

/-- Everything a successful run of one file's processing satisfies: the result
is the declarative fileRecords, its length is the match count (or 1 for the
zero record), it is never empty, every record carries the file's display name,
and with no matching row it is exactly the zero record. -/
lemma create_file_ok (q : String) (f : CsvFile) (recs : List Record)
    (h : create_species_dict_file q f = .ok recs) :
    recs = fileRecords f q ∧
    recs.length =
      (if matchCount q f.header f.rows = 0 then 1 else matchCount q f.header f.rows) ∧
    recs ≠ [] ∧
    (∀ r ∈ recs, r.filename = shorten_name f.name) ∧
    (matchCount q f.header f.rows = 0 →
      recs = [{ filename := shorten_name f.name, reads := ReadsValue.intZero }]) := by
  simp only [create_species_dict_file] at h
  split at h
  · cases h
  · rename_i counter recs0 heq
    obtain ⟨h1, h2, h3⟩ :=
      scanRows_ok (shorten_name f.name) q f.header f.rows 0 [] (counter, recs0) heq
    dsimp only at h1 h2
    split at h
    · rename_i hzero
      injection h with h
      subst h
      have hmc : matchCount q f.header f.rows = 0 := by omega
      have hmr : matchRecords (shorten_name f.name) q f.header f.rows = [] := by
        have := h3.trans hmc
        exact List.length_eq_zero.mp this
      rw [h2, hmr]
      refine ⟨?_, ?_, ?_, ?_, ?_⟩
      · simp [fileRecords, hmr]
      · simp [hmc]
      · simp
      · intro r hrg
        simp at hrg
        rw [hrg]
      · intro _; simp
    · rename_i hnz
      injection h with h
      subst h
      have hmc : matchCount q f.header f.rows ≠ 0 := by omega
      have hne : matchRecords (shorten_name f.name) q f.header f.rows ≠ [] := by
        intro hx
        exact hmc (by rw [← h3, hx]; rfl)
      rw [h2]
      refine ⟨?_, ?_, ?_, ?_, ?_⟩
      · simp only [fileRecords, List.nil_append]
        rw [if_neg (by simpa [List.isEmpty_iff] using hne)]
      · simp [h3, if_neg hmc]
      · simpa using hne
      · intro r hrg
        exact matchRecords_filename (shorten_name f.name) q f.header f.rows r
          (by simpa using hrg)
      · intro hx; exact absurd hx hmc

/-- Decomposition of a successful aggregation run into one group of records
per processed filename, in order. -/
lemma create_dict_ok (dir : List DirEntry) (q : String) :
    ∀ (names : List String) (recs : List Record),
      create_species_dict dir names q = .ok recs →
      ∃ groups : List (List Record),
        recs = groups.flatten ∧
        groups.length = names.length ∧
        ∀ i name, names.get? i = some name →
          ∃ f g, openFile dir name = .ok f ∧ create_species_dict_file q f = .ok g ∧
            groups.get? i = some g := by
  intro names
  induction names with
  | nil =>
    intro recs h
    simp only [create_species_dict, Except.ok.injEq] at h
    exact ⟨[], by simp [← h], rfl, by intro i name hi; cases i <;> cases hi⟩
  | cons nm rest ih =>
    intro recs h
    simp only [create_species_dict] at h
    split at h
    · cases h
    · rename_i f hopen
      split at h
      · cases h
      · rename_i recs1 hfile
        split at h
        · cases h
        · rename_i more hrest
          injection h with h
          subst h
          obtain ⟨groups, hg1, hg2, hg3⟩ := ih more hrest
          refine ⟨recs1 :: groups, ?_, ?_, ?_⟩
          · simp [List.flatten_cons, hg1]
          · simp [hg2]
          · intro i name hi
            cases i with
            | zero =>
              simp only [List.get?] at hi
              injection hi with hi
              subst hi
              exact ⟨f, recs1, hopen, hfile, rfl⟩
            | succ j =>
              obtain ⟨f2, g2, hb1, hb2, hb3⟩ := hg3 j name (by simpa using hi)
              exact ⟨f2, g2, hb1, hb2, by simpa using hb3⟩

/-- A file without a Species column, but with at least one data row, raises a
KeyError during its scan. -/
lemma file_no_species_error (q : String) (f : CsvFile)
    (hsp : "Species" ∉ f.header) (hrows : f.rows ≠ []) :
    create_species_dict_file q f = .error PyError.keyError := by
  rcases hr : f.rows with _ | ⟨row, rest⟩
  · exact absurd hr hrows
  · simp only [create_species_dict_file, hr, scanRows,
      dictLookup_eq_none f.header row "Species" hsp]

/-- When some processed file cannot be opened, or lacks the Species column
while having a data row, the whole aggregation returns an error. -/
lemma create_dict_error (dir : List DirEntry) (q : String) :
    ∀ (names : List String) (name : String), name ∈ names →
      (openFile dir name = .error PyError.ioError ∨
        (∃ f, openFile dir name = .ok f ∧ "Species" ∉ f.header ∧ f.rows ≠ [])) →
      ∀ recs, create_species_dict dir names q ≠ .ok recs := by
  intro names
  induction names with
  | nil => intro name hmem; cases hmem
  | cons nm rest ih =>
    intro name hmem hbad recs h
    simp only [create_species_dict] at h
    split at h
    · cases h
    · rename_i f hopen
      split at h
      · cases h
      · rename_i recs1 hfile
        split at h
        · cases h
        · rename_i more hrest
          rcases List.mem_cons.mp hmem with hname | hname
          · subst hname
            rcases hbad with hio | ⟨f2, hok, hsp, hrows⟩
            · rw [hopen] at hio; cases hio
            · rw [hopen] at hok
              injection hok with hf2
              subst hf2
              rw [file_no_species_error q f hsp hrows] at hfile
              cases hfile
          · exact ih name hname hbad more hrest

lemma beforeFirst_of_not_contains (p : List Char) :
    ∀ l, containsSub p l = false → beforeFirst p l = l := by
  intro l
  induction l with
  | nil => intro _; rfl
  | cons c rest ih =>
    intro h
    simp only [containsSub, Bool.or_eq_false_iff] at h
    simp [beforeFirst, h.1, ih h.2]

lemma beforeFirst_append_sep :
    ∀ a : List Char, noEarlyOcc a = true → beforeFirst sepChars (a ++ sepChars) = a := by
  intro a
  induction a with
  | nil => intro _; decide
  | cons c rest ih =>
    intro h
    simp only [noEarlyOcc, Bool.and_eq_true, Bool.not_eq_true'] at h
    obtain ⟨h1, h2⟩ := h
    rw [List.cons_append] at h1
    rw [List.cons_append, beforeFirst, h1]
    simp [ih h2]

lemma openFile_ok_name (dir : List DirEntry) (name : String) (f : CsvFile)
    (h : openFile dir name = .ok f) : f.name = name := by
  simp only [openFile] at h
  split at h
  · cases h
  · split at h
    · cases h
    · injection h with h
      rw [← h]

lemma exists_get?_of_mem {α : Type} (l : List α) (a : α) (h : a ∈ l) :
    ∃ i, l.get? i = some a := by
  induction l with
  | nil => cases h
  | cons x xs ih =>
    rcases List.mem_cons.mp h with h1 | h2
    · exact ⟨0, by simp [h1]⟩
    · obtain ⟨i, hi⟩ := ih h2
      exact ⟨i + 1, by simpa using hi⟩

lemma mem_of_get? {α : Type} : ∀ (l : List α) (i : Nat) (a : α),
    l.get? i = some a → a ∈ l := by
  intro l
  induction l with
  | nil => intro i a h; cases h
  | cons x xs ih =>
    intro i a h
    cases i with
    | zero =>
      injection h with h
      exact h ▸ List.mem_cons_self x xs
    | succ j => exact List.mem_cons_of_mem x (ih j a (by simpa using h))

lemma string_mk_data (s : String) : String.mk s.data = s := rfl

/-! ### Concrete fixtures used by counterexamples and witnesses -/

/-- The file A_final_results.csv of the spec scenario in section 8. -/
def cexFileA : CsvFile :=
  { name := "A_final_results.csv", header := ["Species", "Reads"],
    rows := [["SpeciesX", "10"], ["SpeciesY", "3"], ["SpeciesX", "7"]] }

/-- The spec scenario directory: A_final_results.csv with rows
(SpeciesX,10), (SpeciesY,3), (SpeciesX,7) and B_final_results.csv with row
(SpeciesY,5). -/
def cexDir : List DirEntry :=
  [ { name := "A_final_results.csv",
      content := some (["Species", "Reads"],
        [["SpeciesX", "10"], ["SpeciesY", "3"], ["SpeciesX", "7"]]) },
    { name := "B_final_results.csv",
      content := some (["Species", "Reads"], [["SpeciesY", "5"]]) } ]

/-- What the code actually aggregates from cexDir for the query SpeciesX. -/
def cexRecordsAB : List Record :=
  [ { filename := "A", reads := ReadsValue.fromCsv (some "10") },
    { filename := "A", reads := ReadsValue.fromCsv (some "7") },
    { filename := "B", reads := ReadsValue.intZero } ]

/-- A file whose header lacks the Species column and which has no data row. -/
def headerOnlyNoSpecies : CsvFile :=
  { name := "h_final_results.csv", header := ["Pathway", "Reads"], rows := [] }

/-- A file whose header lacks the Species column and which has one data row. -/
def noSpeciesWithRow : CsvFile :=
  { name := "n_final_results.csv", header := ["Pathway", "Reads"],
    rows := [["glycolysis", "4"]] }

/-- A directory whose single matching entry cannot be opened. -/
def badDir : List DirEntry :=
  [ { name := "bad_final_results.csv", content := none } ]

/-- A directory whose single entry ends with the discovery suffix but starts
with a dot. -/
def hiddenDir : List DirEntry :=
  [ { name := ".hidden_final_results.csv", content := some (["Species", "Reads"], []) } ]

/-- A discovered filename containing the substring "_final_results.csv" twice. -/
def doubleName : String := "B_final_results.csv_final_results.csv"

/-! ### Claims -/

/-- Claim C1, counterexample: for the file A_final_results.csv with two rows
matching SpeciesX, the aggregation produces TWO records (one per matching
row, each carrying that row's Reads column value), not exactly one record
whose reads is the occurrence count 2. -/
theorem claim1_counterexample :
    create_species_dict_file "SpeciesX" cexFileA =
      Except.ok [ { filename := "A", reads := ReadsValue.fromCsv (some "10") },
                  { filename := "A", reads := ReadsValue.fromCsv (some "7") } ] ∧
    ([ { filename := "A", reads := ReadsValue.fromCsv (some "10") },
       { filename := "A", reads := ReadsValue.fromCsv (some "7") } ] : List Record).length ≠ 1 ∧
    matchCount "SpeciesX" cexFileA.header cexFileA.rows = 2 :=
  ⟨rfl, by decide, by decide⟩

/-- Claim C1, amended: for every file successfully processed by the
aggregation, the emitted records are one record per row whose Species field
equals the query, carrying that row's Reads column value, in row order — and
the single zero record instead when no row matches.  (The claim's
"exactly one record whose reads is the occurrence count" is false.) -/
theorem claim1_per_match_records (q : String) (f : CsvFile) (recs : List Record)
    (h : create_species_dict_file q f = .ok recs) : recs = fileRecords f q :=
  (create_file_ok q f recs h).1

/-- Witness for claim C1's amended theorem at the concrete file A. -/
theorem claim1_witness :
    ([ { filename := "A", reads := ReadsValue.fromCsv (some "10") },
       { filename := "A", reads := ReadsValue.fromCsv (some "7") } ] : List Record) =
      fileRecords cexFileA "SpeciesX" :=
  claim1_per_match_records "SpeciesX" cexFileA _ rfl

/-- Claim C2, counterexample: on the spec's own scenario the exported data
rows are [("A","10"), ("A","7"), ("B","0")] — per-match rows carrying Reads
values — not [("A","2"), ("B","0")]. -/
theorem claim2_counterexample :
    pipelineRows cexDir "SpeciesX" =
      Except.ok [("A", "10"), ("A", "7"), ("B", "0")] ∧
    ([("A", "10"), ("A", "7"), ("B", "0")] : List (String × String)) ≠
      [("A", "2"), ("B", "0")] :=
  ⟨rfl, by decide⟩

/-- Claim C2, amended: on the scenario directory with query SpeciesX the
ExportedTable's data rows are [("A","10"), ("A","7"), ("B","0")], and its full
content is the corresponding csv text. -/
theorem claim2_exported_rows :
    pipelineRows cexDir "SpeciesX" =
      Except.ok [("A", "10"), ("A", "7"), ("B", "0")] ∧
    pipeline cexDir "SpeciesX" =
      Except.ok "filename,reads\r\nA,10\r\nA,7\r\nB,0\r\n" :=
  ⟨rfl, rfl⟩

/-- Claim C5, counterexample: a file whose header lacks the Species column
but which has no data rows does NOT make the aggregation fail — the scan
never evaluates line["Species"], and the zero record is emitted. -/
theorem claim5_counterexample :
    "Species" ∉ headerOnlyNoSpecies.header ∧
    create_species_dict_file "SpeciesX" headerOnlyNoSpecies =
      Except.ok [ { filename := "h", reads := ReadsValue.intZero } ] :=
  ⟨by decide, rfl⟩

/-- Claim C5, amended: a file lacking the Species column raises an uncaught
KeyError when it has at least one data row (not unconditionally); a file that
cannot be opened raises an uncaught I/O error; and whenever a processed file
has either fault the whole aggregation returns an error rather than
continuing silently. -/
theorem claim5_errors :
    (∀ (q : String) (f : CsvFile), "Species" ∉ f.header → f.rows ≠ [] →
      create_species_dict_file q f = .error PyError.keyError) ∧
    (∀ (dir : List DirEntry) (name : String) (e : DirEntry),
      dir.find? (fun x => x.name == name) = some e → e.content = none →
      openFile dir name = .error PyError.ioError) ∧
    (∀ (dir : List DirEntry) (q : String) (names : List String) (name : String)
      (recs : List Record), name ∈ names →
      (openFile dir name = .error PyError.ioError ∨
        (∃ f, openFile dir name = .ok f ∧ "Species" ∉ f.header ∧ f.rows ≠ [])) →
      create_species_dict dir names q ≠ .ok recs) := by
  refine ⟨file_no_species_error, ?_, ?_⟩
  · intro dir name e h1 h2
    simp [openFile, h1, h2]
  · intro dir q names name recs hmem hbad
    exact create_dict_error dir q names name hmem hbad recs

/-- Witness for claim C5's amended theorem at concrete inputs: a Species-less
file with a data row gives a KeyError, an unopenable entry gives an I/O
error, and a run over the unopenable entry does not succeed. -/
theorem claim5_witness :
    create_species_dict_file "SpeciesX" noSpeciesWithRow = Except.error PyError.keyError ∧
    openFile badDir "bad_final_results.csv" = Except.error PyError.ioError ∧
    create_species_dict badDir ["bad_final_results.csv"] "SpeciesX" ≠ Except.ok [] :=
  ⟨claim5_errors.1 "SpeciesX" noSpeciesWithRow (by decide) (by decide),
   claim5_errors.2.1 badDir "bad_final_results.csv"
     { name := "bad_final_results.csv", content := none } rfl rfl,
   claim5_errors.2.2 badDir "SpeciesX" ["bad_final_results.csv"]
     "bad_final_results.csv" [] (by simp) (Or.inl rfl)⟩

/-- Claim C6, counterexample: for a discovered filename containing the
substring "_final_results.csv" twice, shorten_name keeps only the part before
the FIRST occurrence, which differs from removing the trailing suffix. -/
theorem claim6_counterexample :
    shorten_name doubleName = "B" ∧
    removeSuffixSpec doubleName = "B_final_results.csv" ∧
    shorten_name doubleName ≠ removeSuffixSpec doubleName :=
  ⟨rfl, by decide, by decide⟩

/-- Claim C6, amended: the display name is the part of the filename before
the first occurrence of "_final_results.csv"; it equals the filename with the
trailing "_final_results.csv" removed exactly when no occurrence of that
substring starts before the trailing one (noEarlyOcc). -/
theorem claim6_suffix_strip (a : List Char) (h : noEarlyOcc a = true) :
    shorten_name (String.mk (a ++ sepChars)) = String.mk a := by
  unfold shorten_name
  exact congrArg String.mk (beforeFirst_append_sep a h)

/-- Witness for claim C6's amended theorem at the base name "A". -/
theorem claim6_witness :
    shorten_name (String.mk ("A".data ++ sepChars)) = String.mk "A".data :=
  claim6_suffix_strip "A".data (by decide)

/-- Claim C7: the pipeline is a deterministic function of the directory
contents (with their order) and the query, so two runs with identical inputs
produce byte-identical exported csv content. -/
theorem claim7_deterministic (d1 d2 : List DirEntry) (q1 q2 : String)
    (hd : d1 = d2) (hq : q1 = q2) : pipeline d1 q1 = pipeline d2 q2 := by
  subst hd; subst hq; rfl

/-- Witness for claim C7 at the scenario directory. -/
theorem claim7_witness : pipeline cexDir "SpeciesX" = pipeline cexDir "SpeciesX" :=
  claim7_deterministic cexDir cexDir "SpeciesX" "SpeciesX" rfl rfl

/-- Claim C8, counterexample: a directory entry named
".hidden_final_results.csv" ends with the suffix final_results.csv, yet the
discoverer returns nothing, because the glob wildcard does not match a
leading dot. -/
theorem claim8_counterexample :
    glob_final_results hiddenDir = [] ∧
    ("final_results.csv".data).isSuffixOf ".hidden_final_results.csv".data = true :=
  ⟨rfl, by decide⟩

/-- Claim C8, amended: the discoverer returns exactly the names of directory
entries that end with the case-sensitive suffix final_results.csv AND do not
begin with a dot (hidden files are skipped by the glob wildcard); when
nothing matches it returns the empty list rather than an error. -/
theorem claim8_discovery (dir : List DirEntry) (n : String) :
    n ∈ glob_final_results dir ↔
      (∃ e ∈ dir, e.name = n) ∧
      ("final_results.csv".data).isSuffixOf n.data = true ∧
      n.data.head? ≠ some '.' := by
  constructor
  · intro hn
    obtain ⟨e, hef, hname⟩ := List.mem_map.mp hn
    obtain ⟨hedir, hm⟩ := List.mem_filter.mp hef
    subst hname
    simp only [globMatch, Bool.and_eq_true, Bool.not_eq_true'] at hm
    exact ⟨⟨e, hedir, rfl⟩, hm.1, ne_of_beq_false hm.2⟩
  · rintro ⟨⟨e, hedir, hname⟩, hsuf, hdot⟩
    subst hname
    refine List.mem_map.mpr ⟨e, List.mem_filter.mpr ⟨hedir, ?_⟩, rfl⟩
    simp only [globMatch, Bool.and_eq_true, Bool.not_eq_true']
    refine ⟨hsuf, ?_⟩
    cases hx : (e.name.data.head? == some '.') with
    | false => rfl
    | true => exact absurd (eq_of_beq hx) hdot

/-- Claim C9: a discovered filename that does not contain the substring
"_final_results.csv" (such as final_results.csv itself, which the discovery
pattern still matches) keeps its full name, extension included, as display
name. -/
theorem claim9_name_unchanged (s : String) (hg : globMatch s = true)
    (hc : containsSub sepChars s.data = false) : shorten_name s = s := by
  unfold shorten_name
  rw [beforeFirst_of_not_contains sepChars s.data hc]

/-- Witness for claim C9 at the discovered filename final_results.csv. -/
theorem claim9_witness : shorten_name "final_results.csv" = "final_results.csv" :=
  claim9_name_unchanged "final_results.csv" (by decide) (by decide)

/-- Claim C10: a source file with only a header row and no data rows — even
one whose header lacks the Species column — is processed without error and
contributes exactly one record, with reads = 0. -/
theorem claim10_header_only (name : String) (header : List String) (q : String) :
    create_species_dict_file q { name := name, header := header, rows := [] } =
      Except.ok [ { filename := shorten_name name, reads := ReadsValue.intZero } ] := by
  simp [create_species_dict_file, scanRows]

/-- Claim C3, counterexample: on the scenario directory two files are
discovered but the exported table has three data rows, so the row count does
not equal the number of discovered files. -/
theorem claim3_counterexample :
    create_species_dict cexDir (glob_final_results cexDir) "SpeciesX" =
      Except.ok cexRecordsAB ∧
    (glob_final_results cexDir).length = 2 ∧
    cexRecordsAB.length = 3 ∧
    cexRecordsAB.length ≠ (glob_final_results cexDir).length :=
  ⟨rfl, rfl, rfl, by decide⟩

/-- Claim C3, amended: the exported data rows come grouped by discovered
file, groups in discovery order; there is one group per discovered file, and
the number of data rows is the sum over discovered files of that file's
record count — the file's match count, or 1 when no row matches (not the
number of discovered files). -/
theorem claim3_grouped (dir : List DirEntry) (q : String) (recs : List Record)
    (h : create_species_dict dir (glob_final_results dir) q = .ok recs) :
    ∃ groups : List (List Record),
      recs = groups.flatten ∧
      groups.length = (glob_final_results dir).length ∧
      (exportRows recs).length = (groups.map List.length).sum ∧
      ∀ i name, (glob_final_results dir).get? i = some name →
        ∃ f g, openFile dir name = .ok f ∧ groups.get? i = some g ∧
          g = fileRecords f q ∧
          g.length = (if matchCount q f.header f.rows = 0 then 1
            else matchCount q f.header f.rows) ∧
          ∀ r ∈ g, r.filename = shorten_name name := by
  obtain ⟨groups, hg1, hg2, hg3⟩ := create_dict_ok dir q (glob_final_results dir) recs h
  refine ⟨groups, hg1, hg2, ?_, ?_⟩
  · rw [exportRows, List.length_map, hg1, List.length_flatten]
  · intro i name hi
    obtain ⟨f, g, hof, hfg, hgi⟩ := hg3 i name hi
    obtain ⟨e1, e2, e3, e4, e5⟩ := create_file_ok q f g hfg
    have hname : f.name = name := openFile_ok_name dir name f hof
    exact ⟨f, g, hof, hgi, e1, e2, fun r hr => by rw [e4 r hr, hname]⟩

/-- Witness for claim C3's amended theorem on the scenario run. -/
theorem claim3_witness :
    ∃ groups : List (List Record),
      cexRecordsAB = groups.flatten ∧
      groups.length = (glob_final_results cexDir).length ∧
      (exportRows cexRecordsAB).length = (groups.map List.length).sum ∧
      ∀ i name, (glob_final_results cexDir).get? i = some name →
        ∃ f g, openFile cexDir name = .ok f ∧ groups.get? i = some g ∧
          g = fileRecords f "SpeciesX" ∧
          g.length = (if matchCount "SpeciesX" f.header f.rows = 0 then 1
            else matchCount "SpeciesX" f.header f.rows) ∧
          ∀ r ∈ g, r.filename = shorten_name name :=
  claim3_grouped cexDir "SpeciesX" cexRecordsAB rfl

/-- Claim C4: on a successful run, every discovered file appears in the
result — some record carries its display name — and a discovered file none of
whose rows matches the query contributes the record with reads = 0. -/
theorem claim4_never_omitted (dir : List DirEntry) (q : String) (name : String)
    (recs : List Record)
    (h : create_species_dict dir (glob_final_results dir) q = .ok recs)
    (hmem : name ∈ glob_final_results dir) :
    (∃ r ∈ recs, r.filename = shorten_name name) ∧
    (∀ f, openFile dir name = .ok f → matchCount q f.header f.rows = 0 →
      ({ filename := shorten_name name, reads := ReadsValue.intZero } : Record) ∈ recs) := by
  obtain ⟨groups, hg1, hg2, hg3⟩ := create_dict_ok dir q (glob_final_results dir) recs h
  obtain ⟨i, hi⟩ := exists_get?_of_mem (glob_final_results dir) name hmem
  obtain ⟨f, g, hof, hfg, hgi⟩ := hg3 i name hi
  obtain ⟨e1, e2, e3, e4, e5⟩ := create_file_ok q f g hfg
  have hname : f.name = name := openFile_ok_name dir name f hof
  have hgmem : g ∈ groups := mem_of_get? groups i g hgi
  have hsub : ∀ x, x ∈ g → x ∈ recs := by
    intro x hx
    rw [hg1]
    exact List.mem_flatten.mpr ⟨g, hgmem, hx⟩
  constructor
  · rcases hg : g with _ | ⟨r, g2⟩
    · exact absurd hg e3
    · refine ⟨r, hsub r (by rw [hg]; exact List.mem_cons_self r g2), ?_⟩
      rw [e4 r (by rw [hg]; exact List.mem_cons_self r g2), hname]
  · intro f2 hof2 hmc
    rw [hof] at hof2
    injection hof2 with hf2
    subst hf2
    have hz := e5 hmc
    rw [hname] at hz
    exact hsub _ (by rw [hz]; exact List.mem_cons_self _ _)

/-- Witness for claim C4 on the scenario run: file B has no SpeciesX row and
its zero record is in the result. -/
theorem claim4_witness :
    ({ filename := "B", reads := ReadsValue.intZero } : Record) ∈ cexRecordsAB :=
  (claim4_never_omitted cexDir "SpeciesX" "B_final_results.csv" cexRecordsAB rfl
      (by decide)).2
    { name := "B_final_results.csv", header := ["Species", "Reads"],
      rows := [["SpeciesY", "5"]] } rfl (by decide)

end SpeciesFinder
